import Mathlib

/-!
Verification development for the DavaoClean AI web application.

The definitions below are a shallow embedding of the TypeScript source:

* `src/lib/supabase.ts` — environment check guarding construction of the
  backend client, and the row types `Profile`, `Event`, `Participant`,
  `Upload`.
* the volunteer page (`app/volunteer/page.tsx`) — event catalog loader,
  event detail loader, participation handlers (`handleJoinEvent`,
  `handleUpdateParticipantStatus`), event form submission
  (`handleEventFormSubmit`), and the photo upload pipeline
  (`handleImageUpload`).
* the classifier page (`app/classifier/page.tsx`) — the `handleClassify`
  stub drawing a uniformly random label from the fixed category list.
* `app/components/Navbar.tsx` — the navigation links and the hamburger
  menu state transitions.

JavaScript strings are modelled by `String`, absent values by `Option`,
and the JavaScript truthiness test `!s` on a possibly-undefined string by
`jsFalsyStr`.
-/

namespace DavaoClean

/-- A possibly-undefined JavaScript string value (an environment variable
read via `process.env.X` is `undefined` when unset). -/
abbrev JsStr := Option String

/-- JavaScript falsiness of a possibly-undefined string: `!s` is `true`
exactly when `s` is `undefined` or the empty string. -/
def jsFalsyStr (s : JsStr) : Bool :=
  match s with
  | none => true
  | some v => v == ""

/-- The constructed backend client, `createClient(supabaseUrl, supabaseAnonKey)`.
Only the two connection parameters are observable here. -/
structure SupabaseClient where
  url : String
  anonKey : String
  deriving Repr, DecidableEq

/-- The error message thrown by `src/lib/supabase.ts` when a connection
parameter is missing. -/
def missingEnvMessage : String :=
  "Missing Supabase environment variables. Ensure NEXT_PUBLIC_SUPABASE_URL and NEXT_PUBLIC_SUPABASE_ANON_KEY are set in .env.local at the project root."

/-- Module initialization of `src/lib/supabase.ts` (lines 23–33): read the
two environment variables, throw if `!supabaseUrl || !supabaseAnonKey`,
otherwise construct the client. `Except.error` models the thrown
exception (the module fails before `createClient` runs). -/
def initSupabase (supabaseUrl supabaseAnonKey : JsStr) : Except String SupabaseClient :=
  if jsFalsyStr supabaseUrl || jsFalsyStr supabaseAnonKey then
    .error missingEnvMessage
  else
    .ok ⟨supabaseUrl.getD "", supabaseAnonKey.getD ""⟩

/-- Row of the profiles table (type Profile in src/lib/supabase.ts). -/
structure Profile where
  id : String
  email : String
  role : String
  updated_at : String
  deriving Repr, DecidableEq

/-- Row of the events table (type Event in src/lib/supabase.ts). -/
structure Event where
  id : String
  organizer_id : String
  title : String
  description : String
  location : String
  event_date : String
  created_at : String
  deriving Repr, DecidableEq

/-- Row of the participants table (type Participant in src/lib/supabase.ts). -/
structure Participant where
  id : String
  event_id : String
  volunteer_id : String
  status : String
  deriving Repr, DecidableEq

/-- The statuses declared for Participant.status by the comment in
src/lib/supabase.ts line 58. -/
def declaredParticipantStatuses : List String :=
  ["pending", "accepted", "declined"]

/-- Row of the uploads table as this application reads and writes it.
The declared TypeScript type Upload (src/lib/supabase.ts lines 61–67)
lists id, user_id, image_url, category and created_at; the volunteer
page additionally writes and filters on an event_id column
(handleImageUpload inserts it, fetchEventDetail queries eq on it), so the
runtime row carries event_id as a separate, optional attribute. The
backend generates id and created_at; they are parameters of the insert
model below. -/
structure UploadRow where
  id : String
  user_id : String
  image_url : String
  category : String
  event_id : Option String
  created_at : String
  deriving Repr, DecidableEq

/-- The remote tables this page reads, as lists of rows. -/
structure Db where
  profiles : List Profile
  events : List Event
  participants : List Participant
  uploads : List UploadRow
  deriving Repr

-- ─── Event Catalog Loader (fetchEvents in app/volunteer/page.tsx) ───

/-- The organizer-email lookup inside fetchEvents: select email from
profiles where id = organizerId, single row. -/
def lookupProfileEmail (profiles : List Profile) (pid : String) : Option String :=
  (profiles.find? (fun pr => pr.id == pid)).map (fun pr => pr.email)

/-- The participant-count query inside fetchEvents: select count(*) from
participants where event_id = eid. The filter inspects only event_id,
never status. -/
def countParticipants (participants : List Participant) (eid : String) : Nat :=
  (participants.filter (fun p => p.event_id == eid)).length

/-- The own-participation lookup inside fetchEvents: select * from
participants where event_id = eid and volunteer_id = uid, single row. -/
def findUserParticipation (participants : List Participant) (eid uid : String) :
    Option Participant :=
  participants.find? (fun p => p.event_id == eid && p.volunteer_id == uid)

/-- An event enriched for display (local type EventWithMeta). -/
structure EventWithMeta where
  event : Event
  organizer_email : String
  participant_count : Nat
  user_participation : Option Participant
  deriving Repr

/-- The per-event enrichment step of fetchEvents: organizer email with
"Unknown" fallback, participant count, and the current user's own
participation row (absent when signed out). -/
def enrichEvent (db : Db) (currentUser : Option String) (ev : Event) : EventWithMeta :=
  { event := ev
    organizer_email := (lookupProfileEmail db.profiles ev.organizer_id).getD "Unknown"
    participant_count := countParticipants db.participants ev.id
    user_participation := currentUser.bind (fun uid => findUserParticipation db.participants ev.id uid) }

/-- The Event Catalog Loader (fetchEvents): every event, enriched. The
ascending order by event_date is applied by the backend query and is an
external collaborator; it does not affect the per-event annotations. -/
def fetchEvents (db : Db) (currentUser : Option String) : List EventWithMeta :=
  db.events.map (enrichEvent db currentUser)

/-- Rewrite every participant's status through f, leaving all other
columns untouched. Used to state that a computation is independent of
the status column. -/
def statusRelabel (f : String → String) (db : Db) : Db :=
  { db with participants := db.participants.map (fun p => { p with status := f p.status }) }

-- ─── Participation handlers (app/volunteer/page.tsx) ───

/-- The row handleJoinEvent inserts into participants. -/
structure ParticipantInsert where
  event_id : String
  volunteer_id : String
  status : String
  deriving Repr, DecidableEq

/-- handleJoinEvent: returns without effect when no user is signed in;
otherwise inserts a participation row with status accepted (the source
comment reads: organizers auto-accept participants). -/
def handleJoinEvent (currentUser : Option String) (eventId : String) :
    Option ParticipantInsert :=
  currentUser.map (fun uid => ⟨eventId, uid, "accepted"⟩)

/-- handleUpdateParticipantStatus: update participants set status = s
where id = pid, applied to the table. -/
def updateParticipantStatus (participants : List Participant) (pid s : String) :
    List Participant :=
  participants.map (fun p => if p.id == pid then { p with status := s } else p)

-- ─── Event CRUD Controller (handleEventFormSubmit in app/volunteer/page.tsx) ───

/-- Form state for creating or editing an event (type EventFormState). -/
structure EventFormState where
  title : String
  description : String
  location : String
  event_date : String
  deriving Repr, DecidableEq

/-- The modal mode values create and edit (type EventModalMode; the null
member is modelled with Option). -/
inductive EventModalMode where
  | create
  | edit
  deriving Repr, DecidableEq

/-- The payload of the events insert issued on create. -/
structure EventInsert where
  organizer_id : String
  title : String
  description : String
  location : String
  event_date : String
  deriving Repr, DecidableEq

/-- The payload of the events update issued on edit. -/
structure EventUpdate where
  title : String
  description : String
  location : String
  event_date : String
  deriving Repr, DecidableEq

/-- The observable outcome of one run of handleEventFormSubmit:
either a local validation error (no backend call), a remote insert, a
remote update, or an early return / fall-through with no action. -/
inductive SubmitAction where
  | localError (msg : String)
  | insertEvent (row : EventInsert)
  | updateEvent (id : String) (row : EventUpdate)
  | noAction
  deriving Repr, DecidableEq

/-- The validation error message of handleEventFormSubmit. -/
def requiredFieldsMessage : String := "Title, location, and date are required."

/-- handleEventFormSubmit: early return when signed out; local
validation of title, location and event_date against the empty string
(JavaScript falsiness) before any remote call; then an insert (create
mode) or an update of the editing event (edit mode), with the date
normalized through toISO, modelling new Date(s).toISOString(). -/
def handleEventFormSubmit (toISO : String → String) (currentUser : Option String)
    (mode : Option EventModalMode) (editingEvent : Option String)
    (form : EventFormState) : SubmitAction :=
  match currentUser with
  | none => .noAction
  | some uid =>
    if form.title == "" || form.location == "" || form.event_date == "" then
      .localError requiredFieldsMessage
    else
      match mode, editingEvent with
      | some .create, _ =>
          .insertEvent ⟨uid, form.title, form.description, form.location, toISO form.event_date⟩
      | some .edit, some eid =>
          .updateEvent eid ⟨form.title, form.description, form.location, toISO form.event_date⟩
      | _, _ => .noAction

/-- Number of backend round-trips a submit outcome performs. -/
def remoteCallCount : SubmitAction → Nat
  | .insertEvent _ => 1
  | .updateEvent _ _ => 1
  | _ => 0

-- ─── Photo Upload Pipeline (handleImageUpload in app/volunteer/page.tsx) ───

/-- The uploads row written by handleImageUpload after a successful
storage upload: user_id from the signed-in user, image_url from the
resolved public URL, category set to the literal event (the source
comment reads: marks this as an event photo, vs waste classification),
and event_id linking to the open event. The backend supplies id and
created_at. -/
def eventPhotoInsert (rowId userId eventId publicUrl createdAt : String) : UploadRow :=
  { id := rowId
    user_id := userId
    image_url := publicUrl
    category := "event"
    event_id := some eventId
    created_at := createdAt }

/-- The uploads query of fetchEventDetail: select * from uploads where
event_id = eid (newest-first ordering is applied by the backend). -/
def fetchEventUploads (uploads : List UploadRow) (eid : String) : List UploadRow :=
  uploads.filter (fun u => u.event_id == some eid)

-- ─── Waste Classifier Stub (handleClassify in app/classifier/page.tsx) ───

/-- The waste category union type of the classifier page, without its
null member (the absent-result state is modelled with Option). -/
inductive WasteCategory where
  | biodegradable
  | recyclable
  | residual
  | specialWaste
  deriving Repr, DecidableEq

/-- The display string of each category, as in the TypeScript union. -/
def categoryLabel : WasteCategory → String
  | .biodegradable => "Biodegradable"
  | .recyclable => "Recyclable"
  | .residual => "Residual"
  | .specialWaste => "Special Waste"

/-- The mockCategories array of handleClassify. -/
def mockCategories : List WasteCategory :=
  [.biodegradable, .recyclable, .residual, .specialWaste]

/-- The fixed artificial delay of the classifier stub, in milliseconds
(the setTimeout in handleClassify). -/
def classificationDelayMs : Nat := 2000

/-- The result selection of handleClassify:
mockCategories[Math.floor(Math.random() * mockCategories.length)], with
the draw of Math.random() passed in as r. Out-of-range indexing yields
none, mirroring a JavaScript undefined element. -/
def classify (r : ℚ) : Option WasteCategory :=
  mockCategories.get? (Int.toNat ⌊r * (mockCategories.length : ℚ)⌋)

-- ─── Navbar (app/components/Navbar.tsx) ───

/-- One entry of the navLinks array. -/
structure NavLink where
  href : String
  label : String
  deriving Repr, DecidableEq

/-- The navLinks array of the Navbar component. -/
def navLinks : List NavLink :=
  [⟨"/", "Home"⟩, ⟨"/about", "About"⟩, ⟨"/classifier", "Classifier"⟩, ⟨"/volunteer", "Volunteer"⟩]

/-- Whether a link is rendered with the active styling: strict equality
of the current pathname with the link's href. -/
def isActiveLink (pathname : String) (l : NavLink) : Bool :=
  pathname == l.href

/-- The hamburger button's click handler: setMenuOpen(!menuOpen). -/
def toggleMenu (menuOpen : Bool) : Bool := !menuOpen

/-- The click handler of every mobile-menu link: setMenuOpen(false),
regardless of the prior state. -/
def closeMenuOnNavigate (menuOpen : Bool) : Bool :=
  match menuOpen with
  | _ => false

-- ─── Theorems ───

/-- C1 counterexample: both connection parameters are present (isSome),
yet because the URL is the empty string, module initialization throws
the fatal error and the client is not constructed — refuting the claim
that whenever both parameters are present the client is constructed. -/
theorem c1_counterexample :
    (some "" : JsStr).isSome = true ∧ (some "anon-key" : JsStr).isSome = true ∧
      initSupabase (some "") (some "anon-key") = .error missingEnvMessage :=
  ⟨rfl, rfl, rfl⟩

/-- C1 (amended): if either connection parameter is absent, module
initialization fails fatally with the missing-variables error before
constructing the client; when both are present and non-empty, the
client is constructed from exactly those two values. -/
theorem c1_env_check (url key : JsStr) :
    ((url = none ∨ key = none) → initSupabase url key = .error missingEnvMessage) ∧
    (∀ u k, url = some u → key = some k → u ≠ "" → k ≠ "" →
      initSupabase url key = .ok ⟨u, k⟩) := by
  constructor
  · rintro (rfl | rfl)
    · simp [initSupabase, jsFalsyStr]
    · cases url <;> simp [initSupabase, jsFalsyStr]
  · rintro u k rfl rfl hu hk
    simp [initSupabase, jsFalsyStr, hu, hk, Option.getD]

/-- C1 witness: the amended claim evaluated at concrete inputs — an
absent URL throws, and a present non-empty pair constructs the client. -/
theorem c1_witness :
    initSupabase none (some "anon-key") = .error missingEnvMessage ∧
      initSupabase (some "https://x.supabase.co") (some "anon-key") =
        .ok ⟨"https://x.supabase.co", "anon-key"⟩ :=
  ⟨(c1_env_check none (some "anon-key")).1 (Or.inl rfl),
   (c1_env_check (some "https://x.supabase.co") (some "anon-key")).2
     "https://x.supabase.co" "anon-key" rfl rfl (by decide) (by decide)⟩

/-- C8: a present-but-empty connection parameter behaves exactly like an
absent one — initialization produces the same outcome, namely the fatal
missing-variables error, and the client is never constructed. -/
theorem c8_empty_env_like_absent (url key : JsStr) :
    initSupabase (some "") key = initSupabase none key ∧
    initSupabase url (some "") = initSupabase url none ∧
    initSupabase (some "") key = .error missingEnvMessage ∧
    initSupabase url (some "") = .error missingEnvMessage := by
  refine ⟨rfl, ?_, rfl, ?_⟩ <;> cases url <;> simp [initSupabase, jsFalsyStr]

/-- C6: with a resolved identity, joining any event inserts a
participation row whose status is the literal accepted, unconditionally;
without an identity no insert happens; and pending is nonetheless a
declared status of the Participant type. -/
theorem c6_join_inserts_accepted (uid eventId : String) :
    handleJoinEvent (some uid) eventId = some ⟨eventId, uid, "accepted"⟩ ∧
    handleJoinEvent none eventId = none ∧
    "pending" ∈ declaredParticipantStatuses ∧
    "accepted" ∈ declaredParticipantStatuses := by
  exact ⟨rfl, rfl, by simp [declaredParticipantStatuses], by simp [declaredParticipantStatuses]⟩

/-- C10: the hamburger toggle is an involution on the menuOpen state,
and selecting a mobile-menu link sets the menu closed from any prior
state, idempotently. -/
theorem c10_menu_transitions (menuOpen : Bool) :
    toggleMenu (toggleMenu menuOpen) = menuOpen ∧
    closeMenuOnNavigate menuOpen = false ∧
    closeMenuOnNavigate (closeMenuOnNavigate menuOpen) = closeMenuOnNavigate menuOpen := by
  cases menuOpen <;> exact ⟨rfl, rfl, rfl⟩

/-- C2: the uploads row written for an event photo carries the category
tag and the event id as separate attributes alongside uploader id,
image URL and creation time; its category is the literal event, which is
not one of the waste-classification labels, so the category attribute
distinguishes the two kinds of upload; and the row is linked to its
event — the detail loader's event-photo query selects it for exactly
that event id. -/
theorem c2_upload_row_shape (rowId userId eventId publicUrl createdAt : String)
    (uploads : List UploadRow) :
    (eventPhotoInsert rowId userId eventId publicUrl createdAt).category = "event" ∧
    (eventPhotoInsert rowId userId eventId publicUrl createdAt).event_id = some eventId ∧
    (eventPhotoInsert rowId userId eventId publicUrl createdAt).user_id = userId ∧
    (eventPhotoInsert rowId userId eventId publicUrl createdAt).image_url = publicUrl ∧
    (eventPhotoInsert rowId userId eventId publicUrl createdAt).created_at = createdAt ∧
    "event" ∉ mockCategories.map categoryLabel ∧
    eventPhotoInsert rowId userId eventId publicUrl createdAt ∈
      fetchEventUploads (eventPhotoInsert rowId userId eventId publicUrl createdAt :: uploads) eventId := by
  refine ⟨rfl, rfl, rfl, rfl, rfl, by decide, ?_⟩
  simp [fetchEventUploads, eventPhotoInsert, List.filter]

/-- C5: submitting the event form with an empty title, location or
date-time yields the local field-level error and performs zero backend
calls, in create and edit mode alike; with all three fields non-empty,
create mode issues exactly the insert of the event owned by the current
identity and edit mode issues exactly the update of the editing event's
mutable fields. -/
theorem c5_form_validation (toISO : String → String) (uid : String)
    (mode : Option EventModalMode) (editing : Option String) (form : EventFormState) :
    ((form.title = "" ∨ form.location = "" ∨ form.event_date = "") →
      handleEventFormSubmit toISO (some uid) mode editing form =
          .localError requiredFieldsMessage ∧
        remoteCallCount (handleEventFormSubmit toISO (some uid) mode editing form) = 0) ∧
    (form.title ≠ "" → form.location ≠ "" → form.event_date ≠ "" →
      handleEventFormSubmit toISO (some uid) (some .create) editing form =
          .insertEvent ⟨uid, form.title, form.description, form.location, toISO form.event_date⟩ ∧
        ∀ eid, handleEventFormSubmit toISO (some uid) (some .edit) (some eid) form =
          .updateEvent eid ⟨form.title, form.description, form.location, toISO form.event_date⟩) := by
  constructor
  · intro h
    have hcond : (form.title == "" || form.location == "" || form.event_date == "") = true := by
      rcases h with h | h | h <;> simp [h]
    constructor
    · simp [handleEventFormSubmit, hcond]
    · simp [handleEventFormSubmit, hcond, remoteCallCount]
  · intro ht hl hd
    have hcond : (form.title == "" || form.location == "" || form.event_date == "") = false := by
      simp [ht, hl, hd]
    constructor
    · simp [handleEventFormSubmit, hcond]
    · intro eid
      simp [handleEventFormSubmit, hcond]

/-- C5 witness: the theorem evaluated at concrete forms — an empty
location fails locally with the field-level error and zero remote
calls, and a fully filled form in create mode issues the insert. -/
theorem c5_witness :
    (handleEventFormSubmit id (some "user-1") (some .create) none
        ⟨"Bucana Beach Clean-up", "", "", "2024-06-01T08:00"⟩ =
      .localError requiredFieldsMessage ∧
      remoteCallCount (handleEventFormSubmit id (some "user-1") (some .create) none
        ⟨"Bucana Beach Clean-up", "", "", "2024-06-01T08:00"⟩) = 0) ∧
    handleEventFormSubmit id (some "user-1") (some .create) none
        ⟨"Bucana Beach Clean-up", "desc", "Bucana", "2024-06-01T08:00"⟩ =
      .insertEvent ⟨"user-1", "Bucana Beach Clean-up", "desc", "Bucana", "2024-06-01T08:00"⟩ :=
  ⟨(c5_form_validation id "user-1" (some .create) none
      ⟨"Bucana Beach Clean-up", "", "", "2024-06-01T08:00"⟩).1 (Or.inr (Or.inl rfl)),
   ((c5_form_validation id "user-1" (some .create) none
      ⟨"Bucana Beach Clean-up", "desc", "Bucana", "2024-06-01T08:00"⟩).2
      (by decide) (by decide) (by decide)).1⟩

/-- Overwriting the status of the same participation row twice is the
same as writing only the second value: the update does not read the
prior status. -/
theorem updateParticipantStatus_overwrite (ps : List Participant) (pid s₁ s₂ : String) :
    updateParticipantStatus (updateParticipantStatus ps pid s₁) pid s₂ =
      updateParticipantStatus ps pid s₂ := by
  induction ps with
  | nil => rfl
  | cons p rest ih =>
    simp only [updateParticipantStatus, List.map_cons, List.cons.injEq] at *
    refine ⟨?_, ih⟩
    by_cases h : p.id == pid <;> simp [h]

/-- Every row targeted by the update carries the written status
afterwards. -/
theorem updateParticipantStatus_target (ps : List Participant) (pid s : String) :
    (((updateParticipantStatus ps pid s).filter (fun p => p.id == pid)).all
      (fun p => p.status == s)) = true := by
  induction ps with
  | nil => rfl
  | cons p rest ih =>
    by_cases h : p.id = pid
    · simpa [updateParticipantStatus, List.filter_cons, List.all_cons, h] using ih
    · simpa [updateParticipantStatus, List.filter_cons, List.all_cons, h] using ih

/-- C7: declining then accepting the same participation row leaves its
final status accepted; each transition overwrites whatever the prior
status was (so both are well-defined from either prior status); and
running the decline-accept pair again reproduces the same table. -/
theorem c7_decline_then_accept (ps : List Participant) (pid s₀ : String) :
    (((updateParticipantStatus (updateParticipantStatus ps pid "declined") pid "accepted").filter
        (fun p => p.id == pid)).all (fun p => p.status == "accepted")) = true ∧
    updateParticipantStatus (updateParticipantStatus ps pid s₀) pid "accepted" =
      updateParticipantStatus ps pid "accepted" ∧
    updateParticipantStatus
        (updateParticipantStatus
          (updateParticipantStatus (updateParticipantStatus ps pid "declined") pid "accepted")
          pid "declined") pid "accepted" =
      updateParticipantStatus (updateParticipantStatus ps pid "declined") pid "accepted" := by
  refine ⟨updateParticipantStatus_target _ _ _, updateParticipantStatus_overwrite _ _ _ _, ?_⟩
  rw [updateParticipantStatus_overwrite, updateParticipantStatus_overwrite,
    updateParticipantStatus_overwrite]

/-- C9: the four Navbar links have pairwise distinct hrefs, and since a
link is styled active exactly when the pathname equals its href, at most
one of the four links is active for any pathname. -/
theorem c9_at_most_one_active_link :
    (navLinks.map (fun l => l.href)).Nodup ∧
    ∀ pathname : String,
      (navLinks.filter (fun l => isActiveLink pathname l)).length ≤ 1 := by
  refine ⟨by decide, ?_⟩
  intro pathname
  by_cases h1 : pathname = "/"
  · subst h1; decide
  by_cases h2 : pathname = "/about"
  · subst h2; decide
  by_cases h3 : pathname = "/classifier"
  · subst h3; decide
  by_cases h4 : pathname = "/volunteer"
  · subst h4; decide
  have e1 : (pathname == "/") = false := by simp [h1]
  have e2 : (pathname == "/about") = false := by simp [h2]
  have e3 : (pathname == "/classifier") = false := by simp [h3]
  have e4 : (pathname == "/volunteer") = false := by simp [h4]
  simp [navLinks, isActiveLink, List.filter_cons, e1, e2, e3, e4]

/-- Relabelling every participant's status leaves the participant count
of every event unchanged: the count query filters on event_id only. -/
theorem countParticipants_statusRelabel (f : String → String)
    (ps : List Participant) (eid : String) :
    countParticipants (ps.map (fun p => { p with status := f p.status })) eid =
      countParticipants ps eid := by
  induction ps with
  | nil => rfl
  | cons p rest ih =>
    by_cases h : p.event_id = eid <;>
      simpa [countParticipants, List.filter_cons, h] using ih

/-- C4: every event in the catalog loader's output reports as its
participant count exactly the number of participation rows whose event
id equals that event's id, and this count is invariant under arbitrary
relabelling of the status column — pending, accepted and declined rows
are counted alike. -/
theorem c4_participant_count (db : Db) (u : Option String) (f : String → String) :
    ((fetchEvents db u).all (fun m => m.participant_count ==
        (db.participants.filter (fun p => p.event_id == m.event.id)).length)) = true ∧
    (fetchEvents (statusRelabel f db) u).map (fun m => m.participant_count) =
      (fetchEvents db u).map (fun m => m.participant_count) := by
  constructor
  · simp [fetchEvents, List.all_eq_true, enrichEvent, countParticipants]
  · have hc : ∀ ev : Event,
        countParticipants (db.participants.map (fun p => { p with status := f p.status })) ev.id =
          countParticipants db.participants ev.id :=
      fun ev => countParticipants_statusRelabel f db.participants ev.id
    simp [fetchEvents, statusRelabel, enrichEvent, hc]

/-- C3: for every possible draw of the random source (a rational in
[0, 1), the range of Math.random()), the classifier stub returns exactly
one label, drawn from the fixed four-element category list — never the
null/none result and never a value outside the list — and the artificial
delay is the fixed 2000 milliseconds. -/
theorem c3_classifier_label (r : ℚ) (h0 : 0 ≤ r) (h1 : r < 1) :
    (∃ c, classify r = some c ∧ c ∈ mockCategories) ∧ classificationDelayMs = 2000 := by
  have hnn : (0:ℚ) ≤ r * (mockCategories.length : ℚ) := by
    have : ((mockCategories.length : ℚ)) = 4 := by norm_num [mockCategories]
    rw [this]; nlinarith
  have hlt : r * (mockCategories.length : ℚ) < ((4 : ℤ) : ℚ) := by
    have : ((mockCategories.length : ℚ)) = 4 := by norm_num [mockCategories]
    rw [this]; push_cast; nlinarith
  have hfl : ⌊r * (mockCategories.length : ℚ)⌋ < 4 := Int.floor_lt.mpr hlt
  have hfl0 : 0 ≤ ⌊r * (mockCategories.length : ℚ)⌋ := Int.floor_nonneg.mpr hnn
  have hn : (⌊r * (mockCategories.length : ℚ)⌋).toNat < mockCategories.length := by
    have h4 : mockCategories.length = 4 := by rfl
    omega
  exact ⟨⟨mockCategories.get ⟨_, hn⟩, List.get?_eq_get hn, List.get_mem _ _ _⟩, rfl⟩

/-- C3 witness: the theorem applied at the concrete draw one half, whose
hypotheses hold, and the concrete resulting label. -/
theorem c3_witness :
    (0:ℚ) ≤ 1/2 ∧ (1/2:ℚ) < 1 ∧ classify (1/2) = some .residual ∧
      ((∃ c, classify (1/2) = some c ∧ c ∈ mockCategories) ∧ classificationDelayMs = 2000) := by
  refine ⟨by norm_num, by norm_num, ?_, c3_classifier_label (1/2) (by norm_num) (by norm_num)⟩
  have h : ((1:ℚ)/2) * ((mockCategories.length : ℚ)) = 2 := by norm_num [mockCategories]
  unfold classify
  rw [h]
  norm_num
  rfl

end DavaoClean
